import Mathlib

/-!
Shallow embedding of `src/task.go` (mhendriawan/task-api): an in-memory
CRUD server over two global slices (`users`, `tasks`) with a token
middleware on the task routes.

Modelling conventions:
- `time.Time` values are abstracted as natural numbers (`Time`); each
  handler invocation receives a single `now : Time` standing for the
  value of the `time.Now()` calls made during that invocation.
- `strconv.Atoi` on the `:id` path parameter is modelled as an
  `Option Int` argument (`none` for a parse error, matching `err != nil`).
- `c.ShouldBindJSON` is modelled as an `Except String β` argument where
  `β` holds exactly the fields the JSON decoder can set. For `User`, the
  `Password` field carries the json tag `"-"`, so the decoder never sets
  it: the bindable shape is `UserIn` and `bindUser` fills `Password`
  with the Go zero value `""`. For `Task` every field is bindable.
- Each handler returns the HTTP response paired with the new collection
  state (the Go handlers mutate the global slice; we pass it explicitly).
-/

namespace TaskApi

/-- Timestamps, abstracting Go `time.Time`. -/
abbrev Time := Nat

/-- The `User` struct of `src/task.go` (lines 12-19), json tags
`id, name, email, -, created_at, updated_at`. -/
structure User where
  ID : Nat
  Name : String
  Email : String
  Password : String
  CreatedAt : Time
  UpdatedAt : Time
deriving DecidableEq, Repr

/-- The `Task` struct of `src/task.go` (lines 21-29), json tags
`id, user_id, title, description, status, created_at, updated_at`. -/
structure Task where
  ID : Nat
  UserID : Nat
  Title : String
  Description : String
  Status : String
  CreatedAt : Time
  UpdatedAt : Time
deriving DecidableEq, Repr

/-- The shape `c.ShouldBindJSON(&user)` can populate: every `User` field
except `Password`, whose json tag is `"-"`. -/
structure UserIn where
  ID : Nat
  Name : String
  Email : String
  CreatedAt : Time
  UpdatedAt : Time
deriving DecidableEq, Repr

/-- Result of the JSON decoder populating a `User`: the unbindable
`Password` field keeps its Go zero value `""`. -/
def bindUser (p : UserIn) : User :=
  { ID := p.ID, Name := p.Name, Email := p.Email, Password := "",
    CreatedAt := p.CreatedAt, UpdatedAt := p.UpdatedAt }

/-- An HTTP response produced by a handler: `c.JSON(status, payload)`
where the payload is a single record, a whole collection, an error
object `gin.H\x7b"error": msg\x7d`, or a message object
`gin.H\x7b"message": msg\x7d`. -/
inductive Response (α : Type) where
  | record (status : Nat) (r : α)
  | collection (status : Nat) (l : List α)
  | err (status : Nat) (msg : String)
  | message (status : Nat) (msg : String)
deriving DecidableEq, Repr

/-- Handler `createUser` (src/task.go lines 105-117): bind the body,
assign `ID = len(users) + 1`, set both timestamps to now, append. -/
def createUser (users : List User) (body : Except String UserIn) (now : Time) :
    Response User × List User :=
  match body with
  | .error e => (.err 400 e, users)
  | .ok p =>
      let user := bindUser p
      let user := { user with ID := users.length + 1, CreatedAt := now, UpdatedAt := now }
      (.record 201 user, users ++ [user])

/-- Handler `getUsers` (src/task.go lines 119-121). -/
def getUsers (users : List User) : Response User × List User :=
  (.collection 200 users, users)

/-- Handler `getUserByID` (src/task.go lines 123-131): 404 on parse
error or `id < 1 || id > len(users)`, else the record at index `id-1`. -/
def getUserByID (users : List User) (idParam : Option Int) :
    Response User × List User :=
  match idParam with
  | none => (.err 404 "User not found", users)
  | some id =>
      if h : id < 1 ∨ id > (users.length : Int) then
        (.err 404 "User not found", users)
      else
        (.record 200 (users.get ⟨id.toNat - 1, by omega⟩), users)

/-- Handler `updateUser` (src/task.go lines 133-149): range check first,
then bind the body; overwrite slot `id-1` wholesale with the bound
record, forcing `ID = id`, `CreatedAt` from the original and
`UpdatedAt = now`. -/
def updateUser (users : List User) (idParam : Option Int)
    (body : Except String UserIn) (now : Time) : Response User × List User :=
  match idParam with
  | none => (.err 404 "User not found", users)
  | some id =>
      if h : id < 1 ∨ id > (users.length : Int) then
        (.err 404 "User not found", users)
      else
        match body with
        | .error e => (.err 400 e, users)
        | .ok p =>
            let orig := users.get ⟨id.toNat - 1, by omega⟩
            let updatedUser := bindUser p
            let updatedUser := { updatedUser with
                                 ID := id.toNat, CreatedAt := orig.CreatedAt, UpdatedAt := now }
            (.record 200 updatedUser, users.set (id.toNat - 1) updatedUser)

/-- Handler `deleteUser` (src/task.go lines 151-159): range check, then
`users = append(users[:id-1], users[id:]...)`, i.e. remove index `id-1`
and shift the tail left. -/
def deleteUser (users : List User) (idParam : Option Int) :
    Response User × List User :=
  match idParam with
  | none => (.err 404 "User not found", users)
  | some id =>
      if id < 1 ∨ id > (users.length : Int) then
        (.err 404 "User not found", users)
      else
        (.message 200 "User deleted", users.eraseIdx (id.toNat - 1))

/-- Handler `createTask` (src/task.go lines 162-174). -/
def createTask (tasks : List Task) (body : Except String Task) (now : Time) :
    Response Task × List Task :=
  match body with
  | .error e => (.err 400 e, tasks)
  | .ok p =>
      let task := { p with ID := tasks.length + 1, CreatedAt := now, UpdatedAt := now }
      (.record 201 task, tasks ++ [task])

/-- Handler `getTasks` (src/task.go lines 176-178). -/
def getTasks (tasks : List Task) : Response Task × List Task :=
  (.collection 200 tasks, tasks)

/-- Handler `getTaskByID` (src/task.go lines 180-188). -/
def getTaskByID (tasks : List Task) (idParam : Option Int) :
    Response Task × List Task :=
  match idParam with
  | none => (.err 404 "Task not found", tasks)
  | some id =>
      if h : id < 1 ∨ id > (tasks.length : Int) then
        (.err 404 "Task not found", tasks)
      else
        (.record 200 (tasks.get ⟨id.toNat - 1, by omega⟩), tasks)

/-- Handler `updateTask` (src/task.go lines 190-206). -/
def updateTask (tasks : List Task) (idParam : Option Int)
    (body : Except String Task) (now : Time) : Response Task × List Task :=
  match idParam with
  | none => (.err 404 "Task not found", tasks)
  | some id =>
      if h : id < 1 ∨ id > (tasks.length : Int) then
        (.err 404 "Task not found", tasks)
      else
        match body with
        | .error e => (.err 400 e, tasks)
        | .ok p =>
            let orig := tasks.get ⟨id.toNat - 1, by omega⟩
            let updatedTask := { p with
                                 ID := id.toNat, CreatedAt := orig.CreatedAt, UpdatedAt := now }
            (.record 200 updatedTask, tasks.set (id.toNat - 1) updatedTask)

/-- Handler `deleteTask` (src/task.go lines 208-216). -/
def deleteTask (tasks : List Task) (idParam : Option Int) :
    Response Task × List Task :=
  match idParam with
  | none => (.err 404 "Task not found", tasks)
  | some id =>
      if id < 1 ∨ id > (tasks.length : Int) then
        (.err 404 "Task not found", tasks)
      else
        (.message 200 "Task deleted", tasks.eraseIdx (id.toNat - 1))

/-- The dummy token validator `getUserInfoFromToken` (src/task.go lines
94-102): ignores the token and returns the fixed user with nil error.
Unset Go struct fields take their zero values. -/
def getUserInfoFromToken (_token : String) : Except String User :=
  .ok { ID := 1, Name := "John Doe", Email := "john.doe@example.com",
        Password := "", CreatedAt := 0, UpdatedAt := 0 }

/-- Outcome of the middleware: either abort with a response (the handler
is never called) or proceed with the request-context entries written by
`c.Set`. -/
inductive AuthResult where
  | abort (status : Nat) (msg : String)
  | proceed (ctx : List (String × User))
deriving DecidableEq, Repr

/-- Middleware `authMiddleware` (src/task.go lines 71-91). Gin
`c.GetHeader("Authorization")` yields `""` when the header is absent,
so absent and empty coincide. -/
def authMiddleware (token : String) : AuthResult :=
  if token = "" then
    .abort 401 "Unauthorized: Missing token"
  else
    match getUserInfoFromToken token with
    | .error e => .abort 401 ("Unauthorized: " ++ toString e)
    | .ok userInfo => .proceed [("userInfo", userInfo)]

/-- The two global collections (src/task.go lines 31-34). -/
structure AppState where
  users : List User
  tasks : List Task
deriving DecidableEq, Repr

/-- A request to a task route: the middleware runs first; on abort the
handler is not invoked and neither store changes. -/
def runTaskRoute (token : String)
    (handler : List Task → Response Task × List Task) (st : AppState) :
    Response Task × AppState :=
  match authMiddleware token with
  | .abort s m => (.err s m, st)
  | .proceed _ =>
      let p := handler st.tasks
      (p.1, { st with tasks := p.2 })

/-- Checks whether `pat` is a leading chunk of `s`. -/
def takesLead (pat : List Char) : List Char → Bool
  | s =>
    match pat, s with
    | [], _ => true
    | _ :: _, [] => false
    | p :: ps, c :: cs => p == c && takesLead ps cs

/-- Checks whether `pat` occurs contiguously inside `s`. -/
def occursIn (pat : List Char) : List Char → Bool
  | [] => takesLead pat []
  | c :: cs => takesLead pat (c :: cs) || occursIn pat cs

/-- String containment: does `s` contain `pat` as a contiguous chunk. -/
def strContains (s pat : String) : Bool :=
  occursIn pat.toList s.toList

/-- One request against the users collection, as dispatched by the
router (no middleware on user routes); returns the new store. -/
inductive UserOp where
  | create (body : Except String UserIn) (now : Time)
  | index
  | getById (idParam : Option Int)
  | update (idParam : Option Int) (body : Except String UserIn) (now : Time)
  | delete (idParam : Option Int)
deriving Repr

/-- The store after one users-route request. -/
def applyUserOp (users : List User) : UserOp → List User
  | .create body now => (createUser users body now).2
  | .index => (getUsers users).2
  | .getById idParam => (getUserByID users idParam).2
  | .update idParam body now => (updateUser users idParam body now).2
  | .delete idParam => (deleteUser users idParam).2

/-- The users store after a sequence of requests starting from the
empty initial slice. -/
def runUserOps (ops : List UserOp) : List User :=
  ops.foldl applyUserOp []

/-- Serialization of a `User` to its JSON wire fields, following the
struct tags: `Password` has tag `"-"` and is omitted entirely. -/
def serializeUser (u : User) : List (String × String) :=
  [("id", toString u.ID), ("name", u.Name), ("email", u.Email),
   ("created_at", toString u.CreatedAt), ("updated_at", toString u.UpdatedAt)]

/-- A create-only request trace against the users collection, with the
clock value of each request. -/
def runUserCreates (ps : List (UserIn × Time)) : List User :=
  ps.foldl (fun users pt => (createUser users (.ok pt.1) pt.2).2) []

/-- A create-only request trace against the tasks collection. -/
def runTaskCreates (qs : List (Task × Time)) : List Task :=
  qs.foldl (fun tasks qt => (createTask tasks (.ok qt.1) qt.2).2) []

/-- Sample decoded user payload used as concrete input. -/
def aliceIn : UserIn :=
  { ID := 0, Name := "Alice", Email := "alice@x.com", CreatedAt := 0, UpdatedAt := 0 }

/-- Sample decoded user payload used as concrete input. -/
def bobIn : UserIn :=
  { ID := 0, Name := "Bob", Email := "bob@x.com", CreatedAt := 0, UpdatedAt := 0 }

/-- Sample stored user record used as concrete input. -/
def aliceStored : User :=
  { ID := 1, Name := "Alice", Email := "alice@x.com", Password := "",
    CreatedAt := 1, UpdatedAt := 1 }

/-- Sample stored user record used as concrete input. -/
def bobStored : User :=
  { ID := 2, Name := "Bob", Email := "bob@x.com", Password := "",
    CreatedAt := 2, UpdatedAt := 2 }

/-- Sample decoded task payload used as concrete input. -/
def choresIn : Task :=
  { ID := 0, UserID := 1, Title := "Chores", Description := "do chores",
    Status := "open", CreatedAt := 0, UpdatedAt := 0 }

/-- Sample stored task record used as concrete input. -/
def choresStored : Task :=
  { ID := 1, UserID := 1, Title := "Chores", Description := "do chores",
    Status := "open", CreatedAt := 1, UpdatedAt := 1 }

/-- Sample stored task record used as concrete input. -/
def laundryStored : Task :=
  { ID := 2, UserID := 1, Title := "Laundry", Description := "wash",
    Status := "open", CreatedAt := 2, UpdatedAt := 2 }

/-- The fixed identity returned by the dummy validator (src/task.go
lines 95-100); remaining fields are Go zero values. -/
def johnDoe : User :=
  { ID := 1, Name := "John Doe", Email := "john.doe@example.com", Password := ""
    CreatedAt := 0, UpdatedAt := 0 }

/-- C1: the claim says identifiers stored in a collection stay unique
across every sequence of Create, Update and Delete requests. The code
violates it: starting from the empty users slice, two creates, a delete
of id 1 and a further create leave two records that both carry
identifier 2, because Create assigns `len + 1` while Delete never
renumbers the surviving records. This contradicts the code comment
comment `Assign a unique ID`. -/
theorem createUser_after_delete_duplicates_identifiers :
    (runUserOps [UserOp.create (.ok aliceIn) 1, UserOp.create (.ok bobIn) 2,
      UserOp.delete (some 1), UserOp.create (.ok bobIn) 3]).map User.ID = [2, 2] ∧
    ¬ ((runUserOps [UserOp.create (.ok aliceIn) 1, UserOp.create (.ok bobIn) 2,
      UserOp.delete (some 1), UserOp.create (.ok bobIn) 3]).map User.ID).Nodup := by
  decide

/-- C7: a task-route request whose Authorization header is absent or
empty (Gin returns `""` for an absent header) is answered 401 with a
body containing "Missing token"; the handler is never consulted and
both collection stores are returned unchanged. -/
theorem auth_missing_token_aborts
    (handler : List Task → Response Task × List Task) (st : AppState) :
    runTaskRoute "" handler st = (Response.err 401 "Unauthorized: Missing token", st) ∧
    authMiddleware "" = AuthResult.abort 401 "Unauthorized: Missing token" ∧
    strContains "Unauthorized: Missing token" "Missing token" = true := by
  refine ⟨rfl, rfl, by decide⟩

/-- C8 counterexample: an Update request whose body fails to decode is
claimed to always produce a 400 carrying the decoder error text, but when
the targeted id is out of range (here id 1 against an empty tasks
slice) the code answers 404 "Task not found" because the range check
runs before the body is decoded. -/
theorem updateTask_badBody_out_of_range_is_404 :
    (updateTask [] (some 1) (.error "invalid request body") 0).1 =
      Response.err 404 "Task not found" ∧
    (updateTask [] (some 1) (.error "invalid request body") 0).1 ≠
      Response.err 400 "invalid request body" := by
  decide

/-- C2: for any collection state and any id with 1 <= id <= length,
Delete(id) answers 200 and replaces the store by the sequence with the
element at position id-1 removed: the length drops by exactly one,
elements before the deleted position keep their index, and every
element from position id onward moves one slot left, so the record
formerly reachable at identifier j+1 becomes reachable at identifier j
for every j >= id. Holds for both the users and the tasks collection. -/
theorem delete_compacts_and_reindexes (us : List User) (ts : List Task) (id : Int)
    (h1 : 1 ≤ id) (h2u : id ≤ (us.length : Int)) (h2t : id ≤ (ts.length : Int)) :
    deleteUser us (some id) =
      (Response.message 200 "User deleted", us.eraseIdx (id.toNat - 1)) ∧
    deleteTask ts (some id) =
      (Response.message 200 "Task deleted", ts.eraseIdx (id.toNat - 1)) ∧
    (us.eraseIdx (id.toNat - 1)).length = us.length - 1 ∧
    (ts.eraseIdx (id.toNat - 1)).length = ts.length - 1 ∧
    (∀ j : Nat, j < id.toNat - 1 → (us.eraseIdx (id.toNat - 1))[j]? = us[j]?) ∧
    (∀ j : Nat, id.toNat - 1 ≤ j → (us.eraseIdx (id.toNat - 1))[j]? = us[j + 1]?) ∧
    (∀ j : Nat, j < id.toNat - 1 → (ts.eraseIdx (id.toNat - 1))[j]? = ts[j]?) ∧
    (∀ j : Nat, id.toNat - 1 ≤ j → (ts.eraseIdx (id.toNat - 1))[j]? = ts[j + 1]?) := by
  have hu : ¬ (id < 1 ∨ id > (us.length : Int)) := by omega
  have ht : ¬ (id < 1 ∨ id > (ts.length : Int)) := by omega
  refine ⟨by simp [deleteUser, hu], by simp [deleteTask, ht],
    List.length_eraseIdx_of_lt (by omega), List.length_eraseIdx_of_lt (by omega),
    fun j hj => List.getElem?_eraseIdx_of_lt _ _ _ hj,
    fun j hj => List.getElem?_eraseIdx_of_ge _ _ _ hj,
    fun j hj => List.getElem?_eraseIdx_of_lt _ _ _ hj,
    fun j hj => List.getElem?_eraseIdx_of_ge _ _ _ hj⟩

/-- C2 witness: the deletion theorem applied at id 1 against concrete
two-element stores. -/
theorem delete_compacts_and_reindexes_witness :
    ((1 : Int) ≤ 1 ∧
     (1 : Int) ≤ (([aliceStored, bobStored] : List User).length : Int) ∧
     (1 : Int) ≤ (([choresStored, laundryStored] : List Task).length : Int)) ∧
    (deleteUser [aliceStored, bobStored] (some 1) =
      (Response.message 200 "User deleted",
        ([aliceStored, bobStored] : List User).eraseIdx ((1 : Int).toNat - 1)) ∧
    deleteTask [choresStored, laundryStored] (some 1) =
      (Response.message 200 "Task deleted",
        ([choresStored, laundryStored] : List Task).eraseIdx ((1 : Int).toNat - 1)) ∧
    (([aliceStored, bobStored] : List User).eraseIdx ((1 : Int).toNat - 1)).length =
      ([aliceStored, bobStored] : List User).length - 1 ∧
    (([choresStored, laundryStored] : List Task).eraseIdx ((1 : Int).toNat - 1)).length =
      ([choresStored, laundryStored] : List Task).length - 1 ∧
    (∀ j : Nat, j < (1 : Int).toNat - 1 →
      (([aliceStored, bobStored] : List User).eraseIdx ((1 : Int).toNat - 1))[j]? =
        ([aliceStored, bobStored] : List User)[j]?) ∧
    (∀ j : Nat, (1 : Int).toNat - 1 ≤ j →
      (([aliceStored, bobStored] : List User).eraseIdx ((1 : Int).toNat - 1))[j]? =
        ([aliceStored, bobStored] : List User)[j + 1]?) ∧
    (∀ j : Nat, j < (1 : Int).toNat - 1 →
      (([choresStored, laundryStored] : List Task).eraseIdx ((1 : Int).toNat - 1))[j]? =
        ([choresStored, laundryStored] : List Task)[j]?) ∧
    (∀ j : Nat, (1 : Int).toNat - 1 ≤ j →
      (([choresStored, laundryStored] : List Task).eraseIdx ((1 : Int).toNat - 1))[j]? =
        ([choresStored, laundryStored] : List Task)[j + 1]?)) :=
  ⟨⟨by decide, by decide, by decide⟩,
   delete_compacts_and_reindexes [aliceStored, bobStored] [choresStored, laundryStored] 1
     (by decide) (by decide) (by decide)⟩

/-- C3: Get-by-id leaves the store untouched and answers the NotFound
error exactly when the path parameter failed to parse (`none`) or the
parsed id is below 1 or above the current length; for an in-range id it
answers 200 with precisely the record stored at position id-1. Holds
for both collections. -/
theorem getById_notFound_iff_out_of_range (us : List User) (ts : List Task)
    (pid : Option Int) :
    (getUserByID us pid).2 = us ∧ (getTaskByID ts pid).2 = ts ∧
    (((getUserByID us pid).1 = Response.err 404 "User not found") ↔
      pid = none ∨ ∃ id : Int, pid = some id ∧ (id < 1 ∨ id > (us.length : Int))) ∧
    (((getTaskByID ts pid).1 = Response.err 404 "Task not found") ↔
      pid = none ∨ ∃ id : Int, pid = some id ∧ (id < 1 ∨ id > (ts.length : Int))) ∧
    (∀ id : Int, pid = some id → 1 ≤ id → id ≤ (us.length : Int) →
      ∃ u, us[id.toNat - 1]? = some u ∧ (getUserByID us pid).1 = Response.record 200 u) ∧
    (∀ id : Int, pid = some id → 1 ≤ id → id ≤ (ts.length : Int) →
      ∃ t, ts[id.toNat - 1]? = some t ∧ (getTaskByID ts pid).1 = Response.record 200 t) := by
  obtain _ | id := pid
  · refine ⟨rfl, rfl, iff_of_true rfl (Or.inl rfl), iff_of_true rfl (Or.inl rfl), ?_, ?_⟩ <;>
      exact fun id h => by cases h
  refine ⟨?_, ?_, ?_, ?_, ?_, ?_⟩
  · by_cases hu : id < 1 ∨ id > (us.length : Int) <;> simp [getUserByID, hu]
  · by_cases ht : id < 1 ∨ id > (ts.length : Int) <;> simp [getTaskByID, ht]
  · constructor
    · intro hresp
      by_cases hu : id < 1 ∨ id > (us.length : Int)
      · exact Or.inr ⟨id, rfl, hu⟩
      · simp [getUserByID, hu] at hresp
    · rintro (h | ⟨id2, heq, hrange⟩)
      · cases h
      · cases heq
        simp [getUserByID, hrange]
  · constructor
    · intro hresp
      by_cases ht : id < 1 ∨ id > (ts.length : Int)
      · exact Or.inr ⟨id, rfl, ht⟩
      · simp [getTaskByID, ht] at hresp
    · rintro (h | ⟨id2, heq, hrange⟩)
      · cases h
      · cases heq
        simp [getTaskByID, hrange]
  · intro id2 heq hlo hhi
    cases heq
    have hlt : id.toNat - 1 < us.length := by omega
    have hu : ¬ (id < 1 ∨ id > (us.length : Int)) := by omega
    exact ⟨us.get ⟨id.toNat - 1, hlt⟩,
      by simp [List.getElem?_eq_getElem hlt], by simp [getUserByID, hu]⟩
  · intro id2 heq hlo hhi
    cases heq
    have hlt : id.toNat - 1 < ts.length := by omega
    have ht : ¬ (id < 1 ∨ id > (ts.length : Int)) := by omega
    exact ⟨ts.get ⟨id.toNat - 1, hlt⟩,
      by simp [List.getElem?_eq_getElem hlt], by simp [getTaskByID, ht]⟩

/-- C3 witness: the range theorem applied to singleton stores with the
in-range path parameter 1. -/
theorem getById_notFound_iff_out_of_range_witness :
    (getUserByID [aliceStored] (some 1)).2 = [aliceStored] ∧
    (getTaskByID [choresStored] (some 1)).2 = [choresStored] ∧
    (((getUserByID [aliceStored] (some 1)).1 = Response.err 404 "User not found") ↔
      (some 1 : Option Int) = none ∨ ∃ id : Int, (some 1 : Option Int) = some id ∧
        (id < 1 ∨ id > (([aliceStored] : List User).length : Int))) ∧
    (((getTaskByID [choresStored] (some 1)).1 = Response.err 404 "Task not found") ↔
      (some 1 : Option Int) = none ∨ ∃ id : Int, (some 1 : Option Int) = some id ∧
        (id < 1 ∨ id > (([choresStored] : List Task).length : Int))) ∧
    (∀ id : Int, (some 1 : Option Int) = some id → 1 ≤ id →
      id ≤ (([aliceStored] : List User).length : Int) →
      ∃ u, ([aliceStored] : List User)[id.toNat - 1]? = some u ∧
        (getUserByID [aliceStored] (some 1)).1 = Response.record 200 u) ∧
    (∀ id : Int, (some 1 : Option Int) = some id → 1 ≤ id →
      id ≤ (([choresStored] : List Task).length : Int) →
      ∃ t, ([choresStored] : List Task)[id.toNat - 1]? = some t ∧
        (getTaskByID [choresStored] (some 1)).1 = Response.record 200 t) :=
  getById_notFound_iff_out_of_range [aliceStored] [choresStored] (some 1)

/-- Helper: a create-only fold over the users store appends records
whose identifiers continue sequentially from the accumulator length. -/
theorem runUserCreates_ids_aux (ps : List (UserIn × Time)) (us : List User) :
    ((ps.foldl (fun users pt => (createUser users (.ok pt.1) pt.2).2) us).map User.ID) =
      us.map User.ID ++ List.range' (us.length + 1) ps.length := by
  induction ps generalizing us with
  | nil => simp
  | cons pt ps ih =>
      rw [List.foldl_cons, ih]
      simp [createUser, bindUser, List.range'_succ, Nat.add_assoc, Nat.add_comm 1 1]

/-- Helper: a create-only fold over the tasks store appends records
whose identifiers continue sequentially from the accumulator length. -/
theorem runTaskCreates_ids_aux (qs : List (Task × Time)) (ts : List Task) :
    ((qs.foldl (fun tasks qt => (createTask tasks (.ok qt.1) qt.2).2) ts).map Task.ID) =
      ts.map Task.ID ++ List.range' (ts.length + 1) qs.length := by
  induction qs generalizing ts with
  | nil => simp
  | cons qt qs ih =>
      rw [List.foldl_cons, ih]
      simp [createTask, List.range'_succ, Nat.add_assoc, Nat.add_comm 1 1]

/-- C4: Create with a decoded body never fails: it answers 201 with the
stored record, which is the payload with identifier `length + 1` and
both timestamps set to the request clock, appended at the end of the
collection; consequently N creates from the empty store yield the
identifiers 1..N in creation order. Holds for both collections. -/
theorem create_appends_sequential_identifiers (us : List User) (ts : List Task)
    (p : UserIn) (q : Task) (now : Time)
    (ps : List (UserIn × Time)) (qs : List (Task × Time)) :
    createUser us (.ok p) now =
      (Response.record 201
        { ID := us.length + 1, Name := p.Name, Email := p.Email, Password := ""
          CreatedAt := now, UpdatedAt := now },
       us ++
        [{ ID := us.length + 1, Name := p.Name, Email := p.Email, Password := ""
           CreatedAt := now, UpdatedAt := now }]) ∧
    createTask ts (.ok q) now =
      (Response.record 201 { q with ID := ts.length + 1, CreatedAt := now, UpdatedAt := now },
       ts ++ [{ q with ID := ts.length + 1, CreatedAt := now, UpdatedAt := now }]) ∧
    (runUserCreates ps).map User.ID = List.range' 1 ps.length ∧
    (runTaskCreates qs).map Task.ID = List.range' 1 qs.length := by
  refine ⟨rfl, rfl, ?_, ?_⟩
  · simpa using runUserCreates_ids_aux ps []
  · simpa using runTaskCreates_ids_aux qs []

/-- C5: for an in-range id, Update overwrites the slot id-1 wholesale
with the decoded payload (so the unbindable Password field, absent from
any payload, ends up as the zero value ""), forcing the stored
identifier to id, keeping the CreatedAt of the original record, and stamping
UpdatedAt with the request clock, which under clock monotonicity is at
least the original UpdatedAt. Holds for both collections. -/
theorem update_full_overwrite (us : List User) (ts : List Task) (id : Int)
    (p : UserIn) (q : Task) (now : Time) (origU : User) (origT : Task)
    (h1 : 1 ≤ id) (h2u : id ≤ (us.length : Int)) (h2t : id ≤ (ts.length : Int))
    (hoU : us[id.toNat - 1]? = some origU) (hoT : ts[id.toNat - 1]? = some origT)
    (hcU : origU.UpdatedAt ≤ now) (hcT : origT.UpdatedAt ≤ now) :
    updateUser us (some id) (.ok p) now =
      (Response.record 200
        { ID := id.toNat, Name := p.Name, Email := p.Email, Password := ""
          CreatedAt := origU.CreatedAt, UpdatedAt := now },
       us.set (id.toNat - 1)
        { ID := id.toNat, Name := p.Name, Email := p.Email, Password := ""
          CreatedAt := origU.CreatedAt, UpdatedAt := now }) ∧
    updateTask ts (some id) (.ok q) now =
      (Response.record 200
        { q with ID := id.toNat, CreatedAt := origT.CreatedAt, UpdatedAt := now },
       ts.set (id.toNat - 1)
        { q with ID := id.toNat, CreatedAt := origT.CreatedAt, UpdatedAt := now }) ∧
    (∀ r : User, (updateUser us (some id) (.ok p) now).1 = Response.record 200 r →
      r.CreatedAt = origU.CreatedAt ∧ origU.UpdatedAt ≤ r.UpdatedAt) ∧
    (∀ r : Task, (updateTask ts (some id) (.ok q) now).1 = Response.record 200 r →
      r.CreatedAt = origT.CreatedAt ∧ origT.UpdatedAt ≤ r.UpdatedAt) := by
  have hltU : id.toNat - 1 < us.length := by omega
  have hltT : id.toNat - 1 < ts.length := by omega
  have hu : ¬ (id < 1 ∨ id > (us.length : Int)) := by omega
  have ht : ¬ (id < 1 ∨ id > (ts.length : Int)) := by omega
  have hgU : us.get ⟨id.toNat - 1, hltU⟩ = origU := by
    rw [List.getElem?_eq_getElem hltU] at hoU
    exact Option.some.inj hoU
  have hgT : ts.get ⟨id.toNat - 1, hltT⟩ = origT := by
    rw [List.getElem?_eq_getElem hltT] at hoT
    exact Option.some.inj hoT
  have heqU : updateUser us (some id) (.ok p) now =
      (Response.record 200
        { ID := id.toNat, Name := p.Name, Email := p.Email, Password := ""
          CreatedAt := origU.CreatedAt, UpdatedAt := now },
       us.set (id.toNat - 1)
        { ID := id.toNat, Name := p.Name, Email := p.Email, Password := ""
          CreatedAt := origU.CreatedAt, UpdatedAt := now }) := by
    simp [updateUser, hu, bindUser, ← hgU]
  have heqT : updateTask ts (some id) (.ok q) now =
      (Response.record 200
        { q with ID := id.toNat, CreatedAt := origT.CreatedAt, UpdatedAt := now },
       ts.set (id.toNat - 1)
        { q with ID := id.toNat, CreatedAt := origT.CreatedAt, UpdatedAt := now }) := by
    simp [updateTask, ht, ← hgT]
  refine ⟨heqU, heqT, ?_, ?_⟩
  · intro r hr
    rw [heqU] at hr
    obtain ⟨-, h2⟩ := Response.record.inj hr
    subst h2
    exact ⟨rfl, hcU⟩
  · intro r hr
    rw [heqT] at hr
    obtain ⟨-, h2⟩ := Response.record.inj hr
    subst h2
    exact ⟨rfl, hcT⟩

/-- C5 witness: the update theorem applied at id 1 against singleton
stores, with payloads bobIn and choresIn and clock value 5. -/
theorem update_full_overwrite_witness :
    ((1 : Int) ≤ 1 ∧
     (1 : Int) ≤ (([aliceStored] : List User).length : Int) ∧
     (1 : Int) ≤ (([choresStored] : List Task).length : Int) ∧
     ([aliceStored] : List User)[(1 : Int).toNat - 1]? = some aliceStored ∧
     ([choresStored] : List Task)[(1 : Int).toNat - 1]? = some choresStored ∧
     aliceStored.UpdatedAt ≤ 5 ∧ choresStored.UpdatedAt ≤ 5) ∧
    (updateUser [aliceStored] (some 1) (.ok bobIn) 5 =
      (Response.record 200
        { ID := (1 : Int).toNat, Name := bobIn.Name, Email := bobIn.Email, Password := ""
          CreatedAt := aliceStored.CreatedAt, UpdatedAt := 5 },
       ([aliceStored] : List User).set ((1 : Int).toNat - 1)
        { ID := (1 : Int).toNat, Name := bobIn.Name, Email := bobIn.Email, Password := ""
          CreatedAt := aliceStored.CreatedAt, UpdatedAt := 5 }) ∧
    updateTask [choresStored] (some 1) (.ok choresIn) 5 =
      (Response.record 200
        { choresIn with ID := (1 : Int).toNat, CreatedAt := choresStored.CreatedAt, UpdatedAt := 5 },
       ([choresStored] : List Task).set ((1 : Int).toNat - 1)
        { choresIn with ID := (1 : Int).toNat, CreatedAt := choresStored.CreatedAt, UpdatedAt := 5 }) ∧
    (∀ r : User, (updateUser [aliceStored] (some 1) (.ok bobIn) 5).1 = Response.record 200 r →
      r.CreatedAt = aliceStored.CreatedAt ∧ aliceStored.UpdatedAt ≤ r.UpdatedAt) ∧
    (∀ r : Task, (updateTask [choresStored] (some 1) (.ok choresIn) 5).1 = Response.record 200 r →
      r.CreatedAt = choresStored.CreatedAt ∧ choresStored.UpdatedAt ≤ r.UpdatedAt)) :=
  ⟨⟨by decide, by decide, by decide, by decide, by decide, by decide, by decide⟩,
   update_full_overwrite [aliceStored] [choresStored] 1 bobIn choresIn 5 aliceStored choresStored
     (by decide) (by decide) (by decide) (by decide) (by decide) (by decide) (by decide)⟩

/-- C6: for any task-route request carrying a non-empty Authorization
header, the validator stub succeeds with the fixed identity (ID 1,
name "John Doe") regardless of the token value, so the middleware
validation-error branch is unreachable: the gate stores that identity
under the context key "userInfo" and the route returns exactly the
handler response and store, never an Unauthorized response of the
own. -/
theorem auth_nonempty_token_always_proceeds (token : String) (h : token ≠ "")
    (handler : List Task → Response Task × List Task) (st : AppState) :
    getUserInfoFromToken token = Except.ok johnDoe ∧
    johnDoe.ID = 1 ∧ johnDoe.Name = "John Doe" ∧
    authMiddleware token = AuthResult.proceed [("userInfo", johnDoe)] ∧
    runTaskRoute token handler st =
      ((handler st.tasks).1, { st with tasks := (handler st.tasks).2 }) := by
  refine ⟨rfl, rfl, rfl, ?_, ?_⟩
  · simp [authMiddleware, h, getUserInfoFromToken, johnDoe]
  · simp [runTaskRoute, authMiddleware, h, getUserInfoFromToken]

/-- C6 witness: the gate theorem applied to the token "Bearer abc", the
list handler and a one-task store. -/
theorem auth_nonempty_token_always_proceeds_witness :
    ("Bearer abc" ≠ "") ∧
    (getUserInfoFromToken "Bearer abc" = Except.ok johnDoe ∧
     johnDoe.ID = 1 ∧ johnDoe.Name = "John Doe" ∧
     authMiddleware "Bearer abc" = AuthResult.proceed [("userInfo", johnDoe)] ∧
     runTaskRoute "Bearer abc" getTasks ⟨[], [choresStored]⟩ =
       ((getTasks (AppState.mk [] [choresStored]).tasks).1,
        { AppState.mk [] [choresStored] with
          tasks := (getTasks (AppState.mk [] [choresStored]).tasks).2 })) :=
  ⟨by decide,
   auth_nonempty_token_always_proceeds "Bearer abc" (by decide) getTasks ⟨[], [choresStored]⟩⟩

/-- C8 amended: a Create request whose body fails to decode answers 400
with the decoder error text and leaves the store untouched; an Update
request whose body fails to decode leaves the store untouched in every
case, and answers 400 with the decoder error text provided the
targeted id is within range — when the id is out of range or
unparsable, the range check fires before the body is examined and the
answer is 404. -/
theorem badBody_400_short_circuits (us : List User) (ts : List Task) (e : String)
    (pid : Option Int) (now : Time) :
    createUser us (.error e) now = (Response.err 400 e, us) ∧
    createTask ts (.error e) now = (Response.err 400 e, ts) ∧
    (∀ id : Int, 1 ≤ id → id ≤ (us.length : Int) →
      updateUser us (some id) (.error e) now = (Response.err 400 e, us)) ∧
    (∀ id : Int, 1 ≤ id → id ≤ (ts.length : Int) →
      updateTask ts (some id) (.error e) now = (Response.err 400 e, ts)) ∧
    (updateUser us pid (.error e) now).2 = us ∧
    (updateTask ts pid (.error e) now).2 = ts ∧
    (∀ id : Int, (id < 1 ∨ id > (us.length : Int)) →
      updateUser us (some id) (.error e) now = (Response.err 404 "User not found", us)) ∧
    (∀ id : Int, (id < 1 ∨ id > (ts.length : Int)) →
      updateTask ts (some id) (.error e) now = (Response.err 404 "Task not found", ts)) := by
  refine ⟨rfl, rfl,
    fun id hlo hhi => by
      have hu : ¬ (id < 1 ∨ id > (us.length : Int)) := by omega
      simp [updateUser, hu],
    fun id hlo hhi => by
      have ht : ¬ (id < 1 ∨ id > (ts.length : Int)) := by omega
      simp [updateTask, ht],
    ?_, ?_,
    fun id hb => by simp [updateUser, hb], fun id hb => by simp [updateTask, hb]⟩
  · obtain _ | id2 := pid
    · rfl
    · by_cases hb : id2 < 1 ∨ id2 > (us.length : Int) <;> simp [updateUser, hb]
  · obtain _ | id2 := pid
    · rfl
    · by_cases hb : id2 < 1 ∨ id2 > (ts.length : Int) <;> simp [updateTask, hb]

/-- C8 witness: the short-circuit theorem applied at the empty stores
(the configuration of the counterexample), an undecodable body and the
out-of-range path parameter 1. -/
theorem badBody_400_short_circuits_witness :
    createUser [] (.error "unexpected EOF") 7 = (Response.err 400 "unexpected EOF", []) ∧
    createTask [] (.error "unexpected EOF") 7 = (Response.err 400 "unexpected EOF", []) ∧
    (∀ id : Int, 1 ≤ id → id ≤ (([] : List User).length : Int) →
      updateUser [] (some id) (.error "unexpected EOF") 7 =
        (Response.err 400 "unexpected EOF", [])) ∧
    (∀ id : Int, 1 ≤ id → id ≤ (([] : List Task).length : Int) →
      updateTask [] (some id) (.error "unexpected EOF") 7 =
        (Response.err 400 "unexpected EOF", [])) ∧
    (updateUser [] (some 1) (.error "unexpected EOF") 7).2 = ([] : List User) ∧
    (updateTask [] (some 1) (.error "unexpected EOF") 7).2 = ([] : List Task) ∧
    (∀ id : Int, (id < 1 ∨ id > (([] : List User).length : Int)) →
      updateUser [] (some id) (.error "unexpected EOF") 7 =
        (Response.err 404 "User not found", [])) ∧
    (∀ id : Int, (id < 1 ∨ id > (([] : List Task).length : Int)) →
      updateTask [] (some id) (.error "unexpected EOF") 7 =
        (Response.err 404 "Task not found", [])) :=
  badBody_400_short_circuits [] [] "unexpected EOF" (some 1) 7

/-- Helper: Get-by-id at identifier length+1 against a store that ends
with the record u answers 200 with u. -/
theorem getUserByID_concat (us : List User) (u : User) :
    getUserByID (us ++ [u]) (some ((us.length + 1 : Nat) : Int)) =
      (Response.record 200 u, us ++ [u]) := by
  have hcond : ¬ (((us.length + 1 : Nat) : Int) < 1 ∨
      ((us.length + 1 : Nat) : Int) > (((us ++ [u]).length : Nat) : Int)) := by
    simp
  simp only [getUserByID, dif_neg hcond]
  have hidx : ((us.length + 1 : Nat) : Int).toNat - 1 = us.length := by omega
  congr 1
  congr 1
  simp [hidx]

/-- C9: Create with a decoded payload followed by Get-by-id on the
identifier just returned succeeds and returns exactly the stored
record, which agrees with the payload on every content field; only the
assigned identifier and the two timestamps are changed by the store. -/
theorem create_then_get_roundtrip (us : List User) (p : UserIn) (now : Time) :
    ∃ stored : User,
      createUser us (.ok p) now = (Response.record 201 stored, us ++ [stored]) ∧
      getUserByID (createUser us (.ok p) now).2 (some (stored.ID : Int)) =
        (Response.record 200 stored, us ++ [stored]) ∧
      stored.ID = us.length + 1 ∧ stored.Name = p.Name ∧ stored.Email = p.Email ∧
      stored.Password = "" ∧ stored.CreatedAt = now ∧ stored.UpdatedAt = now := by
  refine ⟨{ ID := us.length + 1, Name := p.Name, Email := p.Email, Password := ""
            CreatedAt := now, UpdatedAt := now }, rfl, ?_, rfl, rfl, rfl, rfl, rfl, rfl⟩
  exact getUserByID_concat us _

/-- Helper: every users-route request preserves the invariant that all
stored records carry the empty Password: the decoder can never set the
field (json tag "-"), Create and Update store decoder output, and
Delete only removes records. -/
theorem applyUserOp_empty_password (us : List User) (op : UserOp)
    (h : ∀ r ∈ us, r.Password = "") :
    ∀ r ∈ applyUserOp us op, r.Password = "" := by
  intro r hr
  cases op with
  | create body now =>
      cases body with
      | error e => exact h r hr
      | ok p =>
          simp only [applyUserOp, createUser, List.mem_append, List.mem_singleton] at hr
          rcases hr with hmem | rfl
          · exact h r hmem
          · rfl
  | index => exact h r hr
  | getById pid =>
      obtain _ | id := pid
      · exact h r hr
      · by_cases hb : id < 1 ∨ id > (us.length : Int) <;>
          [simp only [applyUserOp, getUserByID, dif_pos hb] at hr;
           simp only [applyUserOp, getUserByID, dif_neg hb] at hr] <;> exact h r hr
  | update pid body now =>
      obtain _ | id := pid
      · exact h r hr
      · by_cases hb : id < 1 ∨ id > (us.length : Int)
        · simp only [applyUserOp, updateUser, dif_pos hb] at hr
          exact h r hr
        · cases body with
          | error e =>
              simp only [applyUserOp, updateUser, dif_neg hb] at hr
              exact h r hr
          | ok p =>
              simp only [applyUserOp, updateUser, dif_neg hb] at hr
              rcases List.mem_or_eq_of_mem_set hr with hmem | rfl
              · exact h r hmem
              · rfl
  | delete pid =>
      obtain _ | id := pid
      · exact h r hr
      · by_cases hb : id < 1 ∨ id > (us.length : Int)
        · simp only [applyUserOp, deleteUser, if_pos hb] at hr
          exact h r hr
        · simp only [applyUserOp, deleteUser, if_neg hb] at hr
          exact h r (List.mem_of_mem_eraseIdx hr)

/-- Helper: along any request trace starting from a store whose records
all have empty Password, every reachable store keeps that property. -/
theorem foldUserOps_empty_password (ops : List UserOp) (us : List User)
    (h : ∀ r ∈ us, r.Password = "") :
    ∀ r ∈ ops.foldl applyUserOp us, r.Password = "" := by
  induction ops generalizing us with
  | nil => exact h
  | cons op ops ih => exact ih (applyUserOp us op) (applyUserOp_empty_password us op h)

/-- C10: the wire form of a User does not depend on the Password field
(two records differing only there serialize identically, the field is
omitted entirely), and because the decoder can never populate the
field, every record stored after any sequence of users-route requests
from the empty store has an empty Password. -/
theorem password_never_serialized_or_stored (u : User) (pw : String)
    (ops : List UserOp) :
    serializeUser { u with Password := pw } = serializeUser u ∧
    (runUserOps ops).all (fun r => r.Password == "") = true := by
  refine ⟨rfl, ?_⟩
  rw [List.all_eq_true]
  intro r hr
  have := foldUserOps_empty_password ops [] (by intro r hr; cases hr) r hr
  simp [this]

end TaskApi
